import Mathlib

/-!
Shallow embedding of the `bikecmd` temperature-calibration client
(`src/main.rs`): the frame codec, the single-attempt transmit session
`temp_calibrate_run`, and the retry controller `temp_calibrate`.

Machine integers are modelled as `Nat` (with explicit `% 2^w` where the
source's fixed-width arithmetic can wrap) and as `Int` for the signed
16-bit temperature.  I/O is abstracted into an explicit environment
record supplying the outcome of the open / write / read calls and the
random byte drawn by the fault-injection hook.
-/

namespace Bikecmd

/-- `OPCODE_ACK` from the source: the device's acknowledge byte. -/
def OPCODE_ACK : Nat := 0xBA

/-- `OPCODE_NACK` from the source: the device's negative-acknowledge byte. -/
def OPCODE_NACK : Nat := 0xAA

/-- `MAX_TX_RETRIES` from the source: the retry budget. -/
def MAX_TX_RETRIES : Nat := 3

/-! ## CRC16/XMODEM

The source calls `crc16::State::<crc16::XMODEM>::calculate`, the CRC16
variant with polynomial `0x1021`, initial state `0`, no reflection and
no final xor, processing each byte into the high half of the register. -/

/-- One shift step of the CRC16/XMODEM register: shift left, and xor in
the polynomial `0x1021` when the top bit was set.  The register stays a
16-bit value via `% 65536`. -/
def crc16_step (c : Nat) : Nat :=
  if Nat.testBit c 15 then Nat.xor (c * 2) 0x1021 % 65536 else c * 2 % 65536

/-- Feed one data byte into the CRC16/XMODEM register: xor the byte into
the high half, then run eight shift steps. -/
def crc16_update (c : Nat) (b : Nat) : Nat :=
  (List.range 8).foldl (fun acc _ => crc16_step acc) (Nat.xor c (b * 256) % 65536)

/-- CRC16/XMODEM of a byte list, starting from register `0`. -/
def crc16_xmodem (data : List Nat) : Nat :=
  data.foldl crc16_update 0

/-! ## Frame encoding -/

/-- `i16::to_le_bytes`: the two little-endian bytes of the two's
complement representation of a signed 16-bit value. -/
def i16_to_le_bytes (t : Int) : List Nat :=
  let u := (t % 65536).toNat
  [u % 256, u / 256]

/-- `u16::to_le_bytes`: the two little-endian bytes of a 16-bit value. -/
def u16_to_le_bytes (c : Nat) : List Nat :=
  [c % 256, c / 256 % 256]

/-- The frame built by `temp_calibrate_run` (source lines 147-175):
`[0xFF, 0x02]` header, little-endian temperature payload, then the
little-endian CRC16/XMODEM of `message[1..4]` — incremented by 10
(wrapping at 2^16) when the fault-injection draw fired. -/
def buildMessage (temperature : Int) (fakeissue : Bool) : List Nat :=
  let calibration_bytes := i16_to_le_bytes temperature
  let message := [0xFF, 0x02] ++ calibration_bytes
  let checksum := crc16_xmodem ((message.drop 1).take 3)
  let checksum := if fakeissue then (checksum + 10) % 65536 else checksum
  message ++ u16_to_le_bytes checksum

/-- The fault-injection decision (source lines 159-166): absent
probability means no corruption; otherwise a uniform byte is reduced
`% 100` and compared with the probability. -/
def fakeissueDecision (probability : Option Nat) (randomByte : Nat) : Bool :=
  match probability with
  | none => false
  | some p => decide (randomByte % 100 < p)

/-- The value the fault-injection draw compares against the probability:
the uniform byte reduced modulo 100 (source line 163). -/
def drawnValue (b : Nat) : Nat := b % 100

/-- How many of the 256 equally likely byte values map to a given drawn
value under `drawnValue`. -/
def drawPreimageCount (v : Nat) : Nat :=
  ((List.range 256).filter (fun b => drawnValue b = v)).length

/-! ## Errors and response classification -/

/-- The kind field of a `std::io::Error`.  The source never inspects it;
it is carried so that classification claims can quantify over it. -/
inductive IoErrorKind where
  | notFound
  | notConnected
  | timedOut
  | permissionDenied
  | other
deriving DecidableEq, Repr

/-- A `std::io::Error` as far as this program can observe it. -/
structure IoError where
  kind : IoErrorKind
deriving DecidableEq, Repr

/-- `serialport::ErrorKind`. -/
inductive SerialErrorKind where
  | noDevice
  | invalidInput
  | unknown
  | ioKind (k : IoErrorKind)
deriving DecidableEq, Repr

/-- A `serialport::Error`: a kind plus a description string. -/
structure SerialError where
  kind : SerialErrorKind
  description : String
deriving DecidableEq, Repr

/-- The `BikecmdError` enum from the source. -/
inductive BikecmdError where
  | Io (e : IoError)
  | Serial (e : SerialError)
  | BikecomputerProto (msg : String)
  | RetryStalled (n : Nat)
deriving DecidableEq, Repr

/-- The guard on source line 128: an error aborts the retry loop exactly
when it is a `Serial` error whose kind is `NoDevice`. -/
def isFatalError : BikecmdError → Bool
  | BikecmdError.Serial se =>
    match se.kind with
    | SerialErrorKind.noDevice => true
    | _ => false
  | _ => false

/-- Lowercase hex digit, as produced by Rust's `{:x}` formatting. -/
def hexDigit (n : Nat) : Char :=
  if n < 10 then Char.ofNat (48 + n) else Char.ofNat (87 + n)

/-- Rust's `{:#04x}` formatting of a byte: `0x` followed by two
lowercase hex digits. -/
def fmtHex04 (b : Nat) : String :=
  String.mk ['0', 'x', hexDigit (b / 16 % 16), hexDigit (b % 16)]

/-- Classification of the bytes read back from the device (source lines
185-201): any byte count other than 1 is a protocol error reporting the
count; a single `OPCODE_ACK` is success; a single `OPCODE_NACK` and any
other single byte are protocol errors. -/
def handleResponse (received : List Nat) : Except BikecmdError Unit :=
  match received with
  | [b] =>
    if b = OPCODE_ACK then Except.ok ()
    else if b = OPCODE_NACK then
      Except.error (BikecmdError.BikecomputerProto "Received NACK")
    else
      Except.error (BikecmdError.BikecomputerProto
        ("ACK not received, received " ++ fmtHex04 b ++ " instead"))
  | _ =>
    Except.error (BikecmdError.BikecomputerProto
      ("Expected 1 ACK/NACK byte, received " ++ toString received.length
        ++ " bytes instead"))

/-! ## The transmit session -/

/-- One attempt's interaction with the outside world: the outcome of the
`open`, `write_all` and `read` calls, and the byte drawn by `rand`.
`readData` is the prefix of the 100-byte buffer actually filled. -/
structure LinkEnv where
  openResult : Option SerialError
  randomByte : Nat
  writeResult : Option IoError
  readData : Except IoError (List Nat)

/-- The calibration arguments consumed by the session. -/
structure TemperatureCalibrateArgs where
  current_temperature : Int
  fakeissue : Option Nat
  port : String
  rate : Nat

/-- `temp_calibrate_run` (source lines 142-202): open the port, build
the frame (with the fault-injection draw), write it, read the response
and classify it.  Serial errors from `open` surface as
`BikecmdError.Serial`; I/O errors from `write_all` / `read` surface as
`BikecmdError.Io`. -/
def temp_calibrate_run (env : LinkEnv) (args : TemperatureCalibrateArgs) :
    Except BikecmdError Unit :=
  match env.openResult with
  | some e => Except.error (BikecmdError.Serial e)
  | none =>
    let fakeissue := fakeissueDecision args.fakeissue env.randomByte
    let _message := buildMessage args.current_temperature fakeissue
    match env.writeResult with
    | some e => Except.error (BikecmdError.Io e)
    | none =>
      match env.readData with
      | Except.error e => Except.error (BikecmdError.Io e)
      | Except.ok received => handleResponse received

/-- Concrete arguments for examples: the spec's end-to-end scenario,
temperature 205 (20.5 °C), no fault injection. -/
def sampleArgs : TemperatureCalibrateArgs :=
  { current_temperature := 205, fakeissue := none, port := "COM3", rate := 115200 }

/-- An environment whose `write_all` fails with an I/O error saying the
device is no longer connected. -/
def envWriteVanished : LinkEnv :=
  { openResult := none, randomByte := 0,
    writeResult := some ⟨IoErrorKind.notConnected⟩, readData := Except.ok [] }

/-! ## The retry controller

`temp_calibrate` (source lines 117-140) loops over attempts with a `u8`
counter starting at `MAX_TX_RETRIES`.  Each attempt's result is supplied
by an oracle `outcomes : Nat → Except BikecmdError Unit` (attempt `i`'s
result of `temp_calibrate_run`, since each attempt sees fresh I/O).  The
`retries -= 1` decrement is `u8` arithmetic, modelled as
`(retries + 255) % 256`. -/

/-- The measure that shows the retry loop terminates: the current 8-bit
counter value, with `0` ranked above every nonzero value because a `u8`
decrement from `0` wraps to `255`. -/
def retryMeasure (retries : Nat) : Nat :=
  if retries % 256 = 0 then 256 else retries % 256

/-- The retry loop of `temp_calibrate`: return on success, return the
error unchanged when `isFatalError` (the `NoDevice` guard) holds,
otherwise decrement the `u8` counter and either give up with
`RetryStalled MAX_TX_RETRIES` at zero or move to the next attempt. -/
def temp_calibrate_loop (outcomes : Nat → Except BikecmdError Unit)
    (attempt retries : Nat) : Except BikecmdError Unit :=
  match outcomes attempt with
  | Except.ok _ => Except.ok ()
  | Except.error e =>
    if isFatalError e then Except.error e
    else if h : (retries + 255) % 256 = 0 then
      Except.error (BikecmdError.RetryStalled MAX_TX_RETRIES)
    else
      temp_calibrate_loop outcomes (attempt + 1) ((retries + 255) % 256)
termination_by retryMeasure retries
decreasing_by
  simp only [retryMeasure]
  split <;> split <;> omega

/-- `temp_calibrate`: run the retry loop from attempt `0` with the full
budget `MAX_TX_RETRIES`. -/
def temp_calibrate (outcomes : Nat → Except BikecmdError Unit) :
    Except BikecmdError Unit :=
  temp_calibrate_loop outcomes 0 MAX_TX_RETRIES

/-- The same loop with exact (never-wrapping) arithmetic on the counter:
used to state that the source's `u8` decrement never underflows. -/
def temp_calibrate_loop_exact (outcomes : Nat → Except BikecmdError Unit)
    (attempt retries : Nat) : Except BikecmdError Unit :=
  match outcomes attempt with
  | Except.ok _ => Except.ok ()
  | Except.error e =>
    if isFatalError e then Except.error e
    else if h : retries - 1 = 0 then
      Except.error (BikecmdError.RetryStalled MAX_TX_RETRIES)
    else
      temp_calibrate_loop_exact outcomes (attempt + 1) (retries - 1)
termination_by retries
decreasing_by omega

/-- How many attempts (calls of the per-attempt oracle) the retry loop
makes from a given state. -/
def attemptsUsed (outcomes : Nat → Except BikecmdError Unit)
    (attempt retries : Nat) : Nat :=
  match outcomes attempt with
  | Except.ok _ => 1
  | Except.error e =>
    if isFatalError e then 1
    else if h : (retries + 255) % 256 = 0 then 1
    else 1 + attemptsUsed outcomes (attempt + 1) ((retries + 255) % 256)
termination_by retryMeasure retries
decreasing_by
  simp only [retryMeasure]
  split <;> split <;> omega

set_option maxRecDepth 4000

instance : DecidableEq (Except BikecmdError Unit) := fun a b =>
  match a, b with
  | Except.ok (), Except.ok () => isTrue rfl
  | Except.error x, Except.error y =>
    if h : x = y then isTrue (by simp [h]) else isFalse (by simp [h])
  | Except.ok (), Except.error _ => isFalse (by simp)
  | Except.error _, Except.ok () => isFalse (by simp)

/-! ## Frame-shape helper lemmas -/

/-- Byte 2 of the frame: the low byte of the temperature's two's
complement representation. -/
def tempLo (t : Int) : Nat := (t % 65536).toNat % 256

/-- Byte 3 of the frame: the high byte of the temperature's two's
complement representation. -/
def tempHi (t : Int) : Nat := (t % 65536).toNat / 256

/-- The CRC16/XMODEM the encoder computes, over the three bytes
`[length, temp_lo, temp_hi]`. -/
def frameCrc (t : Int) : Nat := crc16_xmodem [0x02, tempLo t, tempHi t]

/-- The 16-bit word transmitted in the checksum field. -/
def frameChecksum (t : Int) (fake : Bool) : Nat :=
  if fake then (frameCrc t + 10) % 65536 else frameCrc t

/-- The checksum word read back (little-endian) from bytes 4-5 of a
frame. -/
def checksumWord (m : List Nat) : Nat := m.getD 4 0 + 256 * m.getD 5 0

/-- Decoding two little-endian bytes as a signed 16-bit integer. -/
def decode_i16_le (lo hi : Nat) : Int :=
  let u := lo + 256 * hi
  if u < 32768 then (u : Int) else (u : Int) - 65536

/-! ## Arithmetic-bound lemmas -/

theorem crc16_step_lt (c : Nat) : crc16_step c < 65536 := by
  unfold crc16_step
  split <;> exact Nat.mod_lt _ (by norm_num)

theorem crc16_update_lt (c b : Nat) : crc16_update c b < 65536 := by
  unfold crc16_update
  simp only [List.range_succ, List.foldl_append, List.foldl_cons, List.foldl_nil]
  exact crc16_step_lt _

theorem crc16_foldl_lt (data : List Nat) (c : Nat) (h : c < 65536) :
    data.foldl crc16_update c < 65536 := by
  induction data generalizing c with
  | nil => simpa using h
  | cons b t ih => exact ih _ (crc16_update_lt _ _)

theorem crc16_xmodem_lt (data : List Nat) : crc16_xmodem data < 65536 :=
  crc16_foldl_lt data 0 (by norm_num)

theorem frameCrc_lt (t : Int) : frameCrc t < 65536 := crc16_xmodem_lt _

theorem frameChecksum_lt (t : Int) (fake : Bool) : frameChecksum t fake < 65536 := by
  unfold frameChecksum
  split
  · exact Nat.mod_lt _ (by norm_num)
  · exact frameCrc_lt t

theorem u16_to_le_bytes_eq (c : Nat) (h : c < 65536) :
    u16_to_le_bytes c = [c % 256, c / 256] := by
  simp only [u16_to_le_bytes]
  rw [Nat.mod_eq_of_lt (by omega : c / 256 < 256)]

/-- The frame is the four header/payload bytes followed by the
little-endian checksum word.  The checksum slice `(message.drop 1).take 3`
the source feeds to the CRC reduces to `[0x02, tempLo t, tempHi t]`. -/
theorem buildMessage_def2 (t : Int) (fake : Bool) :
    buildMessage t fake =
      [0xFF, 0x02, tempLo t, tempHi t] ++ u16_to_le_bytes (frameChecksum t fake) := rfl

/-- The frame, resolved to its six bytes. -/
theorem buildMessage_eq (t : Int) (fake : Bool) :
    buildMessage t fake =
      [0xFF, 0x02, tempLo t, tempHi t,
        frameChecksum t fake % 256, frameChecksum t fake / 256] := by
  rw [buildMessage_def2, u16_to_le_bytes_eq _ (frameChecksum_lt t fake)]
  rfl

theorem checksumWord_buildMessage (t : Int) (fake : Bool) :
    checksumWord (buildMessage t fake) = frameChecksum t fake := by
  rw [buildMessage_eq]
  have hlt : frameChecksum t fake < 65536 := frameChecksum_lt t fake
  simp only [checksumWord, List.getD_cons_succ, List.getD_cons_zero]
  omega

/-! ## Claim theorems -/

/-- C1: for every signed 16-bit temperature `t`, the encoded frame is
exactly 6 bytes: byte 0 is `0xFF`, byte 1 is `0x02`, bytes 2-3 are the
little-endian encoding of `t`, and bytes 4-5 are the little-endian
CRC16/XMODEM checksum computed over exactly the 3 bytes
`[length byte, temp_lo, temp_hi]` — never over the start marker or the
checksum itself. -/
theorem encode_frame_layout (t : Int) (h1 : -32768 ≤ t) (h2 : t < 32768) :
    buildMessage t false =
      [0xFF, 0x02, tempLo t, tempHi t,
        crc16_xmodem [0x02, tempLo t, tempHi t] % 256,
        crc16_xmodem [0x02, tempLo t, tempHi t] / 256] ∧
    (buildMessage t false).length = 6 ∧
    tempLo t + 256 * tempHi t = (t % 65536).toNat := by
  have h := buildMessage_eq t false
  refine ⟨h, by rw [h]; rfl, ?_⟩
  have hu : (t % 65536).toNat < 65536 := by omega
  simp only [tempLo, tempHi]
  omega

theorem encode_frame_layout_witness :
    (-32768 ≤ (205 : Int)) ∧ (205 : Int) < 32768 ∧
    buildMessage 205 false = [0xFF, 0x02, 0xCD, 0x00, 0x68, 0x0E] :=
  ⟨by decide, by decide,
    ((encode_frame_layout 205 (by decide) (by decide)).1).trans (by decide)⟩

/-- C6: for every signed 16-bit temperature `t`, decoding bytes 2-3 of
the encoded frame as a little-endian signed 16-bit integer recovers
exactly `t`. -/
theorem temperature_roundtrip (t : Int) (h1 : -32768 ≤ t) (h2 : t < 32768) :
    decode_i16_le ((buildMessage t false).getD 2 0) ((buildMessage t false).getD 3 0) = t := by
  rw [buildMessage_eq]
  simp only [List.getD_cons_succ, List.getD_cons_zero, decode_i16_le, tempLo, tempHi]
  split <;> omega

theorem temperature_roundtrip_witness :
    ((-32768 ≤ (-32768 : Int)) ∧ (-32768 : Int) < 32768 ∧
      decode_i16_le ((buildMessage (-32768) false).getD 2 0)
        ((buildMessage (-32768) false).getD 3 0) = -32768) ∧
    ((-32768 ≤ (-1 : Int)) ∧ (-1 : Int) < 32768 ∧
      decode_i16_le ((buildMessage (-1) false).getD 2 0)
        ((buildMessage (-1) false).getD 3 0) = -1) ∧
    ((-32768 ≤ (0 : Int)) ∧ (0 : Int) < 32768 ∧
      decode_i16_le ((buildMessage 0 false).getD 2 0)
        ((buildMessage 0 false).getD 3 0) = 0) ∧
    ((-32768 ≤ (1 : Int)) ∧ (1 : Int) < 32768 ∧
      decode_i16_le ((buildMessage 1 false).getD 2 0)
        ((buildMessage 1 false).getD 3 0) = 1) ∧
    ((-32768 ≤ (32767 : Int)) ∧ (32767 : Int) < 32768 ∧
      decode_i16_le ((buildMessage 32767 false).getD 2 0)
        ((buildMessage 32767 false).getD 3 0) = 32767) :=
  ⟨⟨by decide, by decide, temperature_roundtrip (-32768) (by decide) (by decide)⟩,
   ⟨by decide, by decide, temperature_roundtrip (-1) (by decide) (by decide)⟩,
   ⟨by decide, by decide, temperature_roundtrip 0 (by decide) (by decide)⟩,
   ⟨by decide, by decide, temperature_roundtrip 1 (by decide) (by decide)⟩,
   ⟨by decide, by decide, temperature_roundtrip 32767 (by decide) (by decide)⟩⟩

/-- C7: with fault-injection probability 0 the checksum is never
corrupted, whatever byte the generator draws; with probability 100 it is
always corrupted (and a corrupted checksum word always differs from the
correct one); with the probability absent the decision is always `false`
and the transmitted checksum word equals the computed CRC16/XMODEM. -/
theorem fault_injection_probability_extremes :
    (∀ r : Nat, fakeissueDecision none r = false) ∧
    (∀ r : Nat, fakeissueDecision (some 0) r = false) ∧
    (∀ r : Nat, fakeissueDecision (some 100) r = true) ∧
    (∀ t : Int, checksumWord (buildMessage t false) = frameCrc t) ∧
    (∀ t : Int, checksumWord (buildMessage t true) ≠ checksumWord (buildMessage t false)) := by
  refine ⟨fun r => rfl, fun r => by simp [fakeissueDecision], fun r => ?_, fun t => ?_, fun t => ?_⟩
  · simp [fakeissueDecision, Nat.mod_lt]
  · rw [checksumWord_buildMessage]
    rfl
  · rw [checksumWord_buildMessage, checksumWord_buildMessage]
    have := frameCrc_lt t
    simp only [frameChecksum, if_true, Bool.false_eq_true, if_false]
    omega

/-- C8: when fault injection triggers, the transmitted checksum word is
`(correct CRC16/XMODEM + 10) mod 65536` — the addition of 10 wraps
around modulo `2^16` for every temperature. -/
theorem corrupted_checksum_wraps (t : Int) (h1 : -32768 ≤ t) (h2 : t < 32768) :
    checksumWord (buildMessage t true) = (frameCrc t + 10) % 65536 :=
  checksumWord_buildMessage t true

theorem corrupted_checksum_wraps_witness :
    (-32768 ≤ (3057 : Int)) ∧ (3057 : Int) < 32768 ∧
    checksumWord (buildMessage 3057 true) = (frameCrc 3057 + 10) % 65536 ∧
    frameCrc 3057 = 0xFFFB ∧ checksumWord (buildMessage 3057 true) = 5 :=
  ⟨by decide, by decide, corrupted_checksum_wraps 3057 (by decide) (by decide),
    by decide, by decide⟩

theorem hexDigit_inj :
    ∀ x : Nat, x < 16 → ∀ y : Nat, y < 16 → hexDigit x = hexDigit y → x = y := by
  decide

theorem fmtHex04_inj (b b' : Nat) (hb : b < 256) (hb' : b' < 256)
    (h : fmtHex04 b = fmtHex04 b') : b = b' := by
  have hd : ['0', 'x', hexDigit (b / 16 % 16), hexDigit (b % 16)]
      = ['0', 'x', hexDigit (b' / 16 % 16), hexDigit (b' % 16)] :=
    congrArg String.data h
  simp only [List.cons.injEq, true_and, and_true] at hd
  obtain ⟨h1, h2⟩ := hd
  have e1 := hexDigit_inj _ (by omega) _ (by omega) h1
  have e2 := hexDigit_inj _ (by omega) _ (by omega) h2
  omega

/-- C2: a 1-byte response is classified as follows: `0xBA` yields
success of the attempt, `0xAA` yields the NACK protocol error (an error
the retry controller treats as retryable, never success), and any other
byte yields a protocol error carrying that byte value in `{:#04x}`
format (also retryable); the formatted byte determines the original byte
uniquely. -/
theorem single_byte_response_classification :
    handleResponse [0xBA] = Except.ok () ∧
    (handleResponse [0xAA] =
        Except.error (BikecmdError.BikecomputerProto "Received NACK") ∧
      isFatalError (BikecmdError.BikecomputerProto "Received NACK") = false ∧
      handleResponse [0xAA] ≠ Except.ok ()) ∧
    (∀ b : Nat, b ≠ 0xBA → b ≠ 0xAA →
      handleResponse [b] = Except.error (BikecmdError.BikecomputerProto
        ("ACK not received, received " ++ fmtHex04 b ++ " instead")) ∧
      isFatalError (BikecmdError.BikecomputerProto
        ("ACK not received, received " ++ fmtHex04 b ++ " instead")) = false) ∧
    (∀ b b' : Nat, b < 256 → b' < 256 → fmtHex04 b = fmtHex04 b' → b = b') := by
  refine ⟨by decide, ⟨by decide, by decide, by decide⟩, fun b hba haa => ?_, fmtHex04_inj⟩
  refine ⟨?_, rfl⟩
  simp [handleResponse, OPCODE_ACK, OPCODE_NACK, hba, haa]

theorem single_byte_response_classification_witness :
    ((0x1F : Nat) ≠ 0xBA) ∧ ((0x1F : Nat) ≠ 0xAA) ∧
    (handleResponse [0x1F] = Except.error (BikecmdError.BikecomputerProto
        ("ACK not received, received " ++ fmtHex04 0x1F ++ " instead")) ∧
      isFatalError (BikecmdError.BikecomputerProto
        ("ACK not received, received " ++ fmtHex04 0x1F ++ " instead")) = false) :=
  ⟨by decide, by decide,
    single_byte_response_classification.2.2.1 0x1F (by decide) (by decide)⟩

/-- C3 counterexample: two 3-byte reads with different contents produce
the very same outcome — the error reports only the byte count (here 3),
so no function can recover the bytes actually read from the outcome; the
claim that the outcome carries a copy of the bytes is false. -/
theorem malformed_outcome_drops_bytes :
    handleResponse [0xBA, 0x01, 0x02] = handleResponse [0x00, 0x00, 0x00] ∧
    handleResponse [0xBA, 0x01, 0x02] = Except.error (BikecmdError.BikecomputerProto
      "Expected 1 ACK/NACK byte, received 3 bytes instead") ∧
    ¬ ∃ recover : Except BikecmdError Unit → List Nat,
        ∀ received : List Nat, received.length ≠ 1 →
          recover (handleResponse received) = received := by
  refine ⟨by decide, by decide, ?_⟩
  rintro ⟨recover, h⟩
  have h1 := h [0xBA, 0x01, 0x02] (by decide)
  have h2 := h [0x00, 0x00, 0x00] (by decide)
  rw [show handleResponse [0xBA, 0x01, 0x02] = handleResponse [0x00, 0x00, 0x00] from
    by decide] at h1
  exact absurd (h2.symm.trans h1) (by decide)

/-- C3 amended: whenever the number of response bytes read is not
exactly 1, the outcome is a retryable protocol error carrying the byte
count in its message; the bytes actually read are not part of the
outcome. -/
theorem malformed_outcome_reports_count (received : List Nat)
    (h : received.length ≠ 1) :
    handleResponse received = Except.error (BikecmdError.BikecomputerProto
      ("Expected 1 ACK/NACK byte, received " ++ toString received.length
        ++ " bytes instead")) ∧
    isFatalError (BikecmdError.BikecomputerProto
      ("Expected 1 ACK/NACK byte, received " ++ toString received.length
        ++ " bytes instead")) = false := by
  refine ⟨?_, rfl⟩
  cases received with
  | nil => rfl
  | cons a t =>
    cases t with
    | nil => exact absurd rfl h
    | cons b t2 => rfl

theorem malformed_outcome_reports_count_witness :
    (([] : List Nat).length ≠ 1) ∧
    (handleResponse [] = Except.error (BikecmdError.BikecomputerProto
        ("Expected 1 ACK/NACK byte, received " ++ toString ([] : List Nat).length
          ++ " bytes instead")) ∧
      isFatalError (BikecmdError.BikecomputerProto
        ("Expected 1 ACK/NACK byte, received " ++ toString ([] : List Nat).length
          ++ " bytes instead")) = false) :=
  ⟨by decide, malformed_outcome_reports_count [] (by decide)⟩

/-! ## Retry-controller lemmas -/

/-- The retry loop's result depends only on the outcomes of the attempts
it can reach: oracles that agree on attempts `a, …, a + r - 1` give the
same result (for an 8-bit counter value `1 ≤ r ≤ 255`). -/
theorem temp_calibrate_loop_congr :
    ∀ (r : Nat), 1 ≤ r → r ≤ 255 →
    ∀ (o1 o2 : Nat → Except BikecmdError Unit) (a : Nat),
      (∀ i, a ≤ i → i < a + r → o1 i = o2 i) →
      temp_calibrate_loop o1 a r = temp_calibrate_loop o2 a r := by
  intro r
  induction r using Nat.strong_induction_on with
  | _ r ih =>
    intro hr1 hr2 o1 o2 a hagree
    have ha : o1 a = o2 a := hagree a (by omega) (by omega)
    conv_lhs => rw [temp_calibrate_loop]
    conv_rhs => rw [temp_calibrate_loop]
    rw [ha]
    cases ho : o2 a with
    | ok u => rfl
    | error e =>
      by_cases hf : isFatalError e = true
      · simp [hf]
      · have hmod : (r + 255) % 256 = r - 1 := by omega
        by_cases hz : r - 1 = 0
        · simp [hf, hmod, hz]
        · simp only [hf, Bool.false_eq_true, if_false, hmod, hz, dite_false, dif_neg,
            not_false_iff]
          exact ih (r - 1) (by omega) (by omega) (by omega) o1 o2 (a + 1)
            (fun i h1 h2 => hagree i (by omega) (by omega))

/-- For counter values `1 ≤ r ≤ 255` the wrapping `u8` decrement of the
source agrees with exact arithmetic: the retry loop equals its
never-underflowing counterpart. -/
theorem temp_calibrate_loop_eq_exact :
    ∀ (r : Nat), 1 ≤ r → r ≤ 255 →
    ∀ (outcomes : Nat → Except BikecmdError Unit) (a : Nat),
      temp_calibrate_loop outcomes a r = temp_calibrate_loop_exact outcomes a r := by
  intro r
  induction r using Nat.strong_induction_on with
  | _ r ih =>
    intro hr1 hr2 outcomes a
    rw [temp_calibrate_loop, temp_calibrate_loop_exact]
    cases ho : outcomes a with
    | ok u => rfl
    | error e =>
      by_cases hf : isFatalError e = true
      · simp [hf]
      · have hmod : (r + 255) % 256 = r - 1 := by omega
        by_cases hz : r - 1 = 0
        · simp [hf, hmod, hz]
        · simp only [hf, Bool.false_eq_true, if_false, hmod, hz, dite_false, dif_neg,
            not_false_iff]
          exact ih (r - 1) (by omega) (by omega) (by omega) outcomes (a + 1)

/-- The retry loop makes at most `r` attempts when started with an 8-bit
counter value `1 ≤ r ≤ 255`. -/
theorem attemptsUsed_le :
    ∀ (r : Nat), 1 ≤ r → r ≤ 255 →
    ∀ (outcomes : Nat → Except BikecmdError Unit) (a : Nat),
      attemptsUsed outcomes a r ≤ r := by
  intro r
  induction r using Nat.strong_induction_on with
  | _ r ih =>
    intro hr1 hr2 outcomes a
    rw [attemptsUsed]
    cases ho : outcomes a with
    | ok u => exact hr1
    | error e =>
      by_cases hf : isFatalError e = true
      · simp only [hf, if_true]
        omega
      · have hmod : (r + 255) % 256 = r - 1 := by omega
        by_cases hz : r - 1 = 0
        · simp only [hf, Bool.false_eq_true, if_false, hmod, hz, dite_true, dif_pos]
          omega
        · simp only [hf, Bool.false_eq_true, if_false, hmod, hz, dite_false, dif_neg,
            not_false_iff]
          have := ih (r - 1) (by omega) (by omega) (by omega) outcomes (a + 1)
          omega

/-! ## Retry-controller claim theorems -/

/-- C4: the retry controller starts with budget `MAX_TX_RETRIES = 3`.
On a successful first attempt it stops with success; on a fatal
(device-unavailable) outcome it stops immediately with that error after
a single attempt; when the first three attempts all fail retryably it
stops with `RetryStalled` carrying the original budget; and the result
never depends on any attempt beyond the first three. -/
theorem retry_controller_transitions :
    (∀ outcomes : Nat → Except BikecmdError Unit,
      outcomes 0 = Except.ok () → temp_calibrate outcomes = Except.ok ()) ∧
    (∀ (outcomes : Nat → Except BikecmdError Unit) (e : BikecmdError),
      outcomes 0 = Except.error e → isFatalError e = true →
      temp_calibrate outcomes = Except.error e ∧
      attemptsUsed outcomes 0 MAX_TX_RETRIES = 1) ∧
    (∀ outcomes : Nat → Except BikecmdError Unit,
      (∀ i, i < 3 → ∃ e, outcomes i = Except.error e ∧ isFatalError e = false) →
      temp_calibrate outcomes = Except.error (BikecmdError.RetryStalled MAX_TX_RETRIES)) ∧
    (∀ o1 o2 : Nat → Except BikecmdError Unit,
      (∀ i, i < 3 → o1 i = o2 i) → temp_calibrate o1 = temp_calibrate o2) ∧
    MAX_TX_RETRIES = 3 := by
  refine ⟨fun outcomes h => ?_, fun outcomes e h hf => ⟨?_, ?_⟩, fun outcomes hall => ?_,
    fun o1 o2 hagree => ?_, rfl⟩
  · rw [temp_calibrate, temp_calibrate_loop, h]
  · rw [temp_calibrate, temp_calibrate_loop, h]
    simp [hf]
  · rw [attemptsUsed, h]
    simp [hf]
  · obtain ⟨e0, he0, hf0⟩ := hall 0 (by omega)
    obtain ⟨e1, he1, hf1⟩ := hall 1 (by omega)
    obtain ⟨e2, he2, hf2⟩ := hall 2 (by omega)
    rw [temp_calibrate, show MAX_TX_RETRIES = 3 from rfl]
    simp [temp_calibrate_loop, he0, he1, he2, hf0, hf1, hf2, MAX_TX_RETRIES]
  · exact temp_calibrate_loop_congr 3 (by omega) (by omega) o1 o2 0
      (fun i h1 h2 => hagree i (by omega))

theorem retry_controller_transitions_witness :
    (∀ i : Nat, i < 3 →
      ∃ e, (fun _ : Nat =>
          (Except.error (BikecmdError.BikecomputerProto "Received NACK") :
            Except BikecmdError Unit)) i = Except.error e ∧ isFatalError e = false) ∧
    temp_calibrate (fun _ => Except.error (BikecmdError.BikecomputerProto "Received NACK")) =
      Except.error (BikecmdError.RetryStalled MAX_TX_RETRIES) :=
  ⟨fun i _ => ⟨BikecmdError.BikecomputerProto "Received NACK", rfl, rfl⟩,
    retry_controller_transitions.2.2.1 _
      (fun i _ => ⟨BikecmdError.BikecomputerProto "Received NACK", rfl, rfl⟩)⟩

/-- C5 counterexample: a write failure whose underlying I/O error says
the device vanished (`NotConnected`) is classified `BikecmdError.Io`,
which the `NoDevice` guard does not treat as fatal — the retry
controller consumes its whole budget on it instead of failing
immediately, contradicting the claim that a device-vanished I/O error
during write is a fatal failure that bypasses the retry budget. -/
theorem write_error_device_vanished_is_retried :
    temp_calibrate_run envWriteVanished sampleArgs =
      Except.error (BikecmdError.Io ⟨IoErrorKind.notConnected⟩) ∧
    isFatalError (BikecmdError.Io ⟨IoErrorKind.notConnected⟩) = false ∧
    temp_calibrate (fun _ => Except.error (BikecmdError.Io ⟨IoErrorKind.notConnected⟩)) =
      Except.error (BikecmdError.RetryStalled MAX_TX_RETRIES) := by
  refine ⟨rfl, rfl, ?_⟩
  simp [temp_calibrate, temp_calibrate_loop, MAX_TX_RETRIES, isFatalError]

/-- C5 amended: every I/O error during the write or the read is
surfaced as `BikecmdError.Io` and is always retryable, whatever its
kind; only a failure of the open step (a serial error) can be fatal, and
it is fatal exactly when its kind is `NoDevice`. -/
theorem io_error_classification :
    (∀ (env : LinkEnv) (args : TemperatureCalibrateArgs) (e : IoError),
      env.openResult = none → env.writeResult = some e →
      temp_calibrate_run env args = Except.error (BikecmdError.Io e) ∧
      isFatalError (BikecmdError.Io e) = false) ∧
    (∀ (env : LinkEnv) (args : TemperatureCalibrateArgs) (e : IoError),
      env.openResult = none → env.writeResult = none →
      env.readData = Except.error e →
      temp_calibrate_run env args = Except.error (BikecmdError.Io e) ∧
      isFatalError (BikecmdError.Io e) = false) ∧
    (∀ (env : LinkEnv) (args : TemperatureCalibrateArgs) (se : SerialError),
      env.openResult = some se →
      temp_calibrate_run env args = Except.error (BikecmdError.Serial se) ∧
      (isFatalError (BikecmdError.Serial se) = true ↔
        se.kind = SerialErrorKind.noDevice)) := by
  refine ⟨fun env args e hopen hwrite => ?_, fun env args e hopen hwrite hread => ?_,
    fun env args se hopen => ?_⟩
  · refine ⟨?_, rfl⟩
    simp [temp_calibrate_run, hopen, hwrite]
  · refine ⟨?_, rfl⟩
    simp [temp_calibrate_run, hopen, hwrite, hread]
  · refine ⟨by simp [temp_calibrate_run, hopen], ?_⟩
    obtain ⟨k, d⟩ := se
    cases k <;> simp [isFatalError]

theorem io_error_classification_witness :
    (envWriteVanished.openResult = none) ∧
    (envWriteVanished.writeResult = some ⟨IoErrorKind.notConnected⟩) ∧
    (temp_calibrate_run envWriteVanished sampleArgs =
        Except.error (BikecmdError.Io ⟨IoErrorKind.notConnected⟩) ∧
      isFatalError (BikecmdError.Io ⟨IoErrorKind.notConnected⟩) = false) :=
  ⟨rfl, rfl, io_error_classification.1 envWriteVanished sampleArgs
    ⟨IoErrorKind.notConnected⟩ rfl rfl⟩

/-- C10: the `u8` decrement `retries -= 1` in the retry loop only ever
executes on a strictly positive counter, so it never underflows — on
every counter value reachable from the initial budget the wrapping loop
coincides with its exact-arithmetic counterpart — and for every sequence
of attempt outcomes the loop terminates after at most 3 attempts. -/
theorem retry_counter_no_underflow :
    (∀ (outcomes : Nat → Except BikecmdError Unit) (a r : Nat), 1 ≤ r → r ≤ 255 →
      temp_calibrate_loop outcomes a r = temp_calibrate_loop_exact outcomes a r) ∧
    (∀ outcomes : Nat → Except BikecmdError Unit,
      temp_calibrate outcomes = temp_calibrate_loop_exact outcomes 0 MAX_TX_RETRIES) ∧
    (∀ (outcomes : Nat → Except BikecmdError Unit) (a r : Nat), 1 ≤ r → r ≤ 255 →
      attemptsUsed outcomes a r ≤ r) ∧
    (∀ outcomes : Nat → Except BikecmdError Unit,
      attemptsUsed outcomes 0 MAX_TX_RETRIES ≤ 3) :=
  ⟨fun outcomes a r h1 h2 => temp_calibrate_loop_eq_exact r h1 h2 outcomes a,
   fun outcomes => temp_calibrate_loop_eq_exact 3 (by omega) (by omega) outcomes 0,
   fun outcomes a r h1 h2 => attemptsUsed_le r h1 h2 outcomes a,
   fun outcomes => attemptsUsed_le 3 (by omega) (by omega) outcomes 0⟩

theorem retry_counter_no_underflow_witness :
    (1 ≤ 3) ∧ (3 ≤ 255) ∧
    temp_calibrate_loop (fun _ => Except.ok ()) 0 3 =
      temp_calibrate_loop_exact (fun _ => Except.ok ()) 0 3 ∧
    attemptsUsed (fun _ => Except.ok ()) 0 3 ≤ 3 :=
  ⟨by decide, by decide,
    retry_counter_no_underflow.1 (fun _ => Except.ok ()) 0 3 (by decide) (by decide),
    retry_counter_no_underflow.2.2.1 (fun _ => Except.ok ()) 0 3 (by decide) (by decide)⟩

/-- C9 counterexample: the map from the uniform `u8` draw to the
compared value is `b % 100`, and its preimages are not all the same
size: the value 55 is produced by 3 of the 256 byte values while 99 is
produced by only 2 — the draw is not a uniform integer in `[0,100)`. -/
theorem draw_preimage_not_uniform :
    drawPreimageCount 55 = 3 ∧ drawPreimageCount 99 = 2 ∧
    drawPreimageCount 55 ≠ drawPreimageCount 99 :=
  ⟨by decide, by decide, by decide⟩

/-- C9 amended: the fault-injection draw reduces a uniform byte modulo
100, so each value in `[0,55]` has exactly 3 byte preimages and each
value in `[56,99]` exactly 2 — approximately, but not exactly, uniform
on `[0,100)`; the decision compares exactly this drawn value with the
probability. -/
theorem draw_preimage_counts :
    (∀ v : Nat, v < 100 → drawPreimageCount v = if v ≤ 55 then 3 else 2) ∧
    (∀ p r : Nat, fakeissueDecision (some p) r = decide (drawnValue r < p)) := by
  refine ⟨?_, fun p r => rfl⟩
  decide

theorem draw_preimage_counts_witness :
    ((99 : Nat) < 100) ∧ drawPreimageCount 99 = if (99 : Nat) ≤ 55 then 3 else 2 :=
  ⟨by decide, draw_preimage_counts.1 99 (by decide)⟩

end Bikecmd
